import Mathlib

/-!
Shallow embedding of the judge-ai repository (TypeScript, Hono/Drizzle web
application) for checking its natural-language specification.

The code modelled here is:
  * `packages/api/src/routers/evaluations.ts` (current version, second half of
    the concatenated file): `evaluationSchema`, `runSingleEvaluation`,
    `fetchQueueAssignments`, `fetchQueueQuestions`, `buildEvaluationTasks`,
    `runWithConcurrencyLimit`, `processEvaluationResults` and the `run` handler;
  * `packages/api/src/routers/assignments.ts`: the `assign` handler;
  * `packages/api/src/routers/submissions.ts`: the `upload` handler;
  * `packages/db/src/schema` (the drizzle table definitions): `submissions`,
    `questions`, `judges`, `queueJudgeAssignments`, `evaluations`;
  * `packages/api/src/constants/models.ts`: `AVAILABLE_MODELS`.

Database tables are lists of rows; inserts append.  The external
structured-generation call (`generateObject` over OpenRouter) and the
possibility of a database insert throwing are modelled by a per-task oracle.
Since no task reads the evaluations table, executing the task list
sequentially yields the same per-index settled results and the same set of
inserted rows as the concurrent pool; the pool itself is modelled separately
as a transition system for the concurrency-bound property.
-/

namespace JudgeAI

/-- Row of the `judges` table (drizzle schema). `createdAt`/`updatedAt` omitted:
timestamps never influence the modelled handlers. -/
structure Judge where
  id : String
  userId : String
  name : String
  systemPrompt : String
  modelName : String
  isActive : Bool
deriving DecidableEq, Repr

/-- Row of the `queue_judge_assignments` table (drizzle schema); `questionId` is the
question-template id, not a concrete question row id. -/
structure Assignment where
  id : String
  userId : String
  queueId : String
  questionId : String
  judgeId : String
deriving DecidableEq, Repr

/-- Row of the `submissions` table (current schema: the `questions`/`answers` jsonb
columns were dropped by migration 0001). -/
structure Submission where
  id : String
  queueId : String
  labelingTaskId : Option String
  userId : String
deriving DecidableEq, Repr

/-- Row of the `questions` table (drizzle schema). `questionData`/`answerData` jsonb
columns are opaque metadata never read by the modelled handlers and are
omitted. -/
structure Question where
  id : String
  submissionId : String
  queueId : String
  questionId : String
  questionText : String
  questionType : String
  answerChoice : Option String
  answerReasoning : Option String
deriving DecidableEq, Repr

/-- Row of the `evaluations` table (current schema, after migration 0001:
`question_id` references the `questions` table, no `submission_id`).
`rawResponse` is an opaque debugging jsonb blob never read back and is
omitted; `createdAt` likewise. -/
structure EvaluationRow where
  id : String
  questionId : String
  judgeId : String
  verdict : String
  reasoning : String
  tokensUsed : Nat
  latencyMs : Nat
  error : Option String
deriving DecidableEq, Repr

/-- Model allowlist `AVAILABLE_MODELS` from `packages/api/src/constants/models.ts`. -/
def AVAILABLE_MODELS : List String :=
  ["google/gemini-2.5-flash-preview-09-2025",
   "anthropic/claude-haiku-4.5",
   "openai/gpt-5-mini",
   "xai/grok-4-fast-reasoning"]

def MIN_REASONING_LENGTH : Nat := 10

def MAX_REASONING_LENGTH : Nat := 500

/-- The raw object produced by the LLM provider before schema validation:
`generateObject` asks for `{verdict, reasoning}` and validates it against
`evaluationSchema`. -/
structure RawObject where
  verdict : String
  reasoning : String
deriving DecidableEq, Repr

/-- The `z.enum(["pass", "fail", "inconclusive"])` check of `evaluationSchema`. -/
def isValidVerdict (s : String) : Bool :=
  s = "pass" || s = "fail" || s = "inconclusive"

/-- Structured-output schema `evaluationSchema`: verdict constrained to the three-value enum, reasoning
a string of length in `[MIN_REASONING_LENGTH, MAX_REASONING_LENGTH]`. -/
def evaluationSchemaCheck (r : RawObject) : Bool :=
  isValidVerdict r.verdict &&
    decide (MIN_REASONING_LENGTH ≤ r.reasoning.length) &&
    decide (r.reasoning.length ≤ MAX_REASONING_LENGTH)

/-- Outcome of the external `generateObject` transport: either the provider
returned an object (with usage and measured wall-clock latency) or the call
threw (network error, timeout, ...) with a message. A returned object is
still subject to `evaluationSchemaCheck`; a schema mismatch also throws. -/
inductive CallResult where
  | ok (object : RawObject) (totalTokens : Nat) (latencyMs : Nat)
  | err (msg : String)
deriving DecidableEq, Repr

/-- Whether the external call itself threw. -/
def CallResult.isErr : CallResult → Bool
  | .ok _ _ _ => false
  | .err _ => true

/-- Per-task oracle: the external-call outcome, whether each of the two
possible database inserts succeeds (an insert that fails throws, carrying a
driver message), and the `nanoid()` values used for inserted rows. -/
structure TaskOracle where
  call : CallResult
  successInsertOk : Bool
  successInsertMsg : String
  fallbackInsertOk : Bool
  successId : String
  fallbackId : String
deriving DecidableEq, Repr

/-- Return shape of `runSingleEvaluation`: `{ success, evaluation? }`. -/
structure SingleResult where
  success : Bool
  evaluation : Option EvaluationRow
deriving DecidableEq, Repr

/-- The best-effort row written by the catch branch of `runSingleEvaluation`:
verdict literal `"inconclusive"`, the error message in both `reasoning` and
`error`, zeroed `tokensUsed`/`latencyMs`. -/
def fallbackRow (id : String) (q : Question) (j : Judge) (msg : String) :
    EvaluationRow :=
  { id := id
    questionId := q.id
    judgeId := j.id
    verdict := "inconclusive"
    reasoning := msg
    tokensUsed := 0
    latencyMs := 0
    error := some msg }

/-- The catch branch of `runSingleEvaluation`: try to insert the fallback row;
if that insert itself throws, the exception propagates out of the function
(the returned promise rejects), modelled as `Except.error`.  The first
component of the `ok` payload lists the rows this task inserted. -/
def insertFallback (q : Question) (j : Judge) (o : TaskOracle) (msg : String) :
    Except String (List EvaluationRow × SingleResult) :=
  if o.fallbackInsertOk then
    Except.ok ([fallbackRow o.fallbackId q j msg],
      { success := false, evaluation := none })
  else
    Except.error msg

/-- Message carried by the error `generateObject` raises when the provider
output does not match `evaluationSchema` (the exact provider text is
irrelevant to every claim). -/
def schemaErrorMessage : String :=
  "response did not match schema"

/-- Helper `runSingleEvaluation(question, judge)`: call the external
structured-generation API; on success insert an Evaluation row with the
validated verdict/reasoning, usage and latency and return
`{success: true, evaluation}`; on any thrown error (transport failure,
schema-validation failure, or the success-path insert throwing) fall into the
catch branch, which best-effort inserts a degraded row and returns
`{success: false}` — unless that insert throws too, in which case the whole
call rejects. -/
def runSingleEvaluation (q : Question) (j : Judge) (o : TaskOracle) :
    Except String (List EvaluationRow × SingleResult) :=
  match o.call with
  | .ok raw totalTokens latencyMs =>
    if evaluationSchemaCheck raw then
      if o.successInsertOk then
        let row : EvaluationRow :=
          { id := o.successId
            questionId := q.id
            judgeId := j.id
            verdict := raw.verdict
            reasoning := raw.reasoning
            tokensUsed := totalTokens
            latencyMs := latencyMs
            error := none }
        Except.ok ([row], { success := true, evaluation := some row })
      else
        insertFallback q j o o.successInsertMsg
    else
      insertFallback q j o schemaErrorMessage
  | .err msg => insertFallback q j o msg

/-- Result row of the `fetchQueueAssignments` left join:
`{ assignment, judge }`, with `judge` possibly null. -/
structure AssignmentRow where
  assignment : Assignment
  judge : Option Judge
deriving DecidableEq, Repr

/-- Result row of the `fetchQueueQuestions` left join:
`{ question, submission }`. -/
structure QuestionRow where
  question : Question
  submission : Option Submission
deriving DecidableEq, Repr

/-- The whole relational store: one list per drizzle table touched by the
modelled handlers. -/
structure Store where
  submissions : List Submission
  questions : List Question
  judges : List Judge
  assignments : List Assignment
  evaluations : List EvaluationRow
deriving DecidableEq, Repr

/-- Query `fetchQueueAssignments(queueId, userId)`: assignments of the queue owned by
the caller, each left-joined to its judge row (`judges.id = judgeId`). -/
def fetchQueueAssignments (store : Store) (queueId userId : String) :
    List AssignmentRow :=
  (store.assignments.filter
      (fun a => a.queueId = queueId && a.userId = userId)).map
    (fun a =>
      { assignment := a
        judge := store.judges.find? (fun j => j.id = a.judgeId) })

/-- Query `fetchQueueQuestions(queueId, userId)`: question rows of the queue
left-joined to their submission, kept only when the joined submission exists
and belongs to the caller (the `where` clause compares
`submissions.userId = userId`, which a null submission fails). -/
def fetchQueueQuestions (store : Store) (queueId userId : String) :
    List QuestionRow :=
  (store.questions.filter (fun q => q.queueId = queueId)).filterMap
    (fun q =>
      match store.submissions.find? (fun s => s.id = q.submissionId) with
      | some s =>
        if s.userId = userId then
          some { question := q, submission := some s }
        else
          none
      | none => none)

/-- A deferred evaluation task. In the source a task is the thunk
`() => runSingleEvaluation(question, judge)`; the pair it closes over is the
whole task. -/
def EvalTask : Type := Question × Judge

/-- The three guards of the task-building loop in `buildEvaluationTasks`:
the joined judge row is present, owned by the caller, and its model name is
in the `AVAILABLE_MODELS` allowlist. -/
def judgeEligible (userId : String) (judge : Option Judge) : Bool :=
  match judge with
  | none => false
  | some j => j.userId = userId && AVAILABLE_MODELS.contains j.modelName

/-- Task-list construction `buildEvaluationTasks(assignments, queueQuestions, userId)`: for every
assignment row, skip it unless its judge passes the eligibility guards; then
push one task per queue-question row whose template id (`question.questionId`)
equals the assignment's `questionId`. -/
def buildEvaluationTasks (assignments : List AssignmentRow)
    (queueQuestions : List QuestionRow) (userId : String) : List EvalTask :=
  (assignments.map
    (fun ar =>
      match ar.judge with
      | none => ([] : List EvalTask)
      | some j =>
        if j.userId = userId && AVAILABLE_MODELS.contains j.modelName then
          (queueQuestions.filter
              (fun qr => qr.question.questionId = ar.assignment.questionId)).map
            (fun qr => ((qr.question, j) : EvalTask))
        else
          [])).flatten

/-- Mirror of `PromiseSettledResult`: each slot of the results array of
`runWithConcurrencyLimit` is either fulfilled with the task's value or
rejected with the reason the worker caught. -/
inductive SettledResult (α : Type) where
  | fulfilled (value : α)
  | rejected (reason : String)
deriving DecidableEq, Repr

/-- How a worker of `runWithConcurrencyLimit` settles one awaited task: its
`try`/`catch` turns a resolved task into a `fulfilled` slot and a rejected one
into a `rejected` slot (a rejected task inserted nothing).  Sequential
execution is observationally equal to the worker pool here: `results[current]`
is written per claimed index, each task's outcome depends only on its own
oracle, and no task reads the evaluations table, so neither the per-index
results nor the set of inserted rows depends on the interleaving. -/
def settleTask (e : Except String (List EvaluationRow × SingleResult)) :
    List EvaluationRow × SettledResult SingleResult :=
  match e with
  | Except.ok (ins, r) => (ins, SettledResult.fulfilled r)
  | Except.error msg => ([], SettledResult.rejected msg)

/-- Execution of the task list: task `i` runs under oracle `oracle (k + i)`,
and its settled slot and inserted rows are collected in index order (see the
comment on `settleTask` for why sequential execution is observationally equal
to the pool here). -/
def runTasks (oracle : Nat → TaskOracle) :
    Nat → List EvalTask → List EvaluationRow × List (SettledResult SingleResult)
  | _, [] => ([], [])
  | k, t :: rest =>
    let step := settleTask (runSingleEvaluation t.1 t.2 (oracle k))
    let restOut := runTasks oracle (k + 1) rest
    (step.1 ++ restOut.1, step.2 :: restOut.2)

/-- Aggregates returned by `processEvaluationResults`. -/
structure Processed where
  evaluationResults : List EvaluationRow
  completedCount : Nat
  failedCount : Nat
deriving DecidableEq, Repr

/-- Aggregation `processEvaluationResults(results)`: a fulfilled slot whose value has
`success` and a present `evaluation` is completed (its row collected);
every other slot — fulfilled-but-unsuccessful or rejected — is failed. -/
def processEvaluationResults :
    List (SettledResult SingleResult) → Processed
  | [] => { evaluationResults := [], completedCount := 0, failedCount := 0 }
  | r :: rest =>
    let p := processEvaluationResults rest
    match r with
    | SettledResult.fulfilled v =>
      match v.evaluation with
      | some row =>
        if v.success then
          { evaluationResults := row :: p.evaluationResults
            completedCount := p.completedCount + 1
            failedCount := p.failedCount }
        else
          { p with failedCount := p.failedCount + 1 }
      | none => { p with failedCount := p.failedCount + 1 }
    | SettledResult.rejected _ => { p with failedCount := p.failedCount + 1 }

def CONCURRENCY_LIMIT : Nat := 10

/-- Response of the `run` handler. -/
structure RunOutput where
  success : Bool
  planned : Nat
  completed : Nat
  failed : Nat
  evaluations : List EvaluationRow
deriving DecidableEq, Repr

/-- The `evaluations.run` handler, after authentication: fetch assignments
(throw if none), fetch queue questions (throw if none), build the task list,
run it under the concurrency limit, aggregate.  A thrown precondition error is
`Except.error`; since both throws happen before any task is built or run, the
error branch performs no insert and no external call, which the model
expresses by the error carrying no store. -/
def run (store : Store) (queueId userId : String) (oracle : Nat → TaskOracle) :
    Except String (Store × RunOutput) :=
  let assignments := fetchQueueAssignments store queueId userId
  if assignments.length = 0 then
    Except.error "No judge assignments found for this queue"
  else
    let queueQuestions := fetchQueueQuestions store queueId userId
    if queueQuestions.length = 0 then
      Except.error "No questions found for this queue"
    else
      let tasks := buildEvaluationTasks assignments queueQuestions userId
      let plannedCount := tasks.length
      let out := runTasks oracle 0 tasks
      let p := processEvaluationResults out.2
      Except.ok
        ({ store with evaluations := store.evaluations ++ out.1 },
         { success := true
           planned := plannedCount
           completed := p.completedCount
           failed := p.failedCount
           evaluations := p.evaluationResults })

/-! ### The worker pool of `runWithConcurrencyLimit`, as a transition system

A worker is a cooperative loop: read the shared cursor, claim an index
(read-check-increment happens with no `await` in between, hence atomically in
the single-threaded event loop), `await` the claimed task, write its slot,
repeat; when the cursor has passed the end, the loop exits.  A state records
the cursor and each worker's status; a task is "in flight" exactly while some
worker is awaiting it. -/

/-- Status of one worker of the pool. -/
inductive WorkerState where
  | idle
  | running (taskIdx : Nat)
  | finished
deriving DecidableEq, Repr

/-- Pool state: the shared `nextIndex` cursor plus one status per worker. -/
structure PoolState where
  nextIndex : Nat
  workers : List WorkerState
deriving DecidableEq, Repr

/-- Initial pool state for a task list of length `n`:
`workerCount = Math.min(limit, tasks.length)` workers are spawned, all at the
top of their loop. -/
def poolInit (limit n : Nat) : PoolState :=
  { nextIndex := 0, workers := List.replicate (min limit n) WorkerState.idle }

/-- One event-loop step of the pool over a task list of length `n`. -/
inductive PoolStep (n : Nat) : PoolState → PoolState → Prop where
  /-- An idle worker claims the next index: it reads `nextIndex`, sees it is
  below `tasks.length`, increments it, and starts awaiting the task. -/
  | claim (s : PoolState) (i : Nat)
      (h : s.workers[i]? = some WorkerState.idle) (hlt : s.nextIndex < n) :
      PoolStep n s
        { nextIndex := s.nextIndex + 1
          workers := s.workers.set i (WorkerState.running s.nextIndex) }
  /-- A worker's awaited task settles; the worker records the slot and loops. -/
  | settle (s : PoolState) (i j : Nat)
      (h : s.workers[i]? = some (WorkerState.running j)) :
      PoolStep n s { s with workers := s.workers.set i WorkerState.idle }
  /-- An idle worker reads a cursor past the end and breaks out of its loop. -/
  | exitLoop (s : PoolState) (i : Nat)
      (h : s.workers[i]? = some WorkerState.idle) (hge : n ≤ s.nextIndex) :
      PoolStep n s { s with workers := s.workers.set i WorkerState.finished }

/-- Number of tasks currently being awaited (external calls outstanding). -/
def inflight (s : PoolState) : Nat :=
  s.workers.countP
    (fun w =>
      match w with
      | WorkerState.running _ => true
      | _ => false)

/-- States the pool can be in during a run over `n` tasks with the given
worker-count limit. -/
def PoolReachable (limit n : Nat) (s : PoolState) : Prop :=
  Relation.ReflTransGen (PoolStep n) (poolInit limit n) s

/-! ### `assignments.assign` -/

/-- Input of the `assign` handler. -/
structure AssignInput where
  queueId : String
  questionId : String
  judgeIds : List String
deriving DecidableEq, Repr

/-- The existence check of `assign`: is there already a row with this exact
(queueId, questionId, judgeId, userId) tuple? -/
def assignExists (rows : List Assignment)
    (queueId questionId judgeId userId : String) : Bool :=
  rows.any
    (fun a =>
      a.queueId = queueId && a.questionId = questionId &&
        a.judgeId = judgeId && a.userId = userId)

/-- The loop body of `assign` over `judgeIds`: skip a judge id whose tuple
already exists in the (live, already-updated) table, otherwise insert a fresh
row.  `freshIds k` models the `nanoid()` drawn at iteration `k`.  Returns the
final table and the list of rows this call inserted. -/
def assignGo (userId queueId questionId : String) (freshIds : Nat → String) :
    Nat → List String → List Assignment → List Assignment × List Assignment
  | _, [], rows => (rows, [])
  | k, jid :: rest, rows =>
    if assignExists rows queueId questionId jid userId then
      assignGo userId queueId questionId freshIds (k + 1) rest rows
    else
      let a : Assignment :=
        { id := freshIds k
          userId := userId
          queueId := queueId
          questionId := questionId
          judgeId := jid }
      let out :=
        assignGo userId queueId questionId freshIds (k + 1) rest (rows ++ [a])
      (out.1, a :: out.2)

/-- The `assignments.assign` handler (after authentication), acting on the
`queue_judge_assignments` table. -/
def assign (rows : List Assignment) (userId : String) (inp : AssignInput)
    (freshIds : Nat → String) : List Assignment × List Assignment :=
  assignGo userId inp.queueId inp.questionId freshIds 0 inp.judgeIds rows

/-- The per-owner key of an assignment row: the
(queue id, question-template id, judge id, owner) tuple. -/
def assignTuple (a : Assignment) : String × String × String × String :=
  (a.queueId, a.questionId, a.judgeId, a.userId)

/-! ### `submissions.upload` -/

/-- One entry of the `questions` array of an uploaded submission
(`questionSchema`: `{rev, data: {id, questionType, questionText}}`). -/
structure UploadQuestion where
  rev : Nat
  id : String
  questionType : String
  questionText : String
deriving DecidableEq, Repr

/-- One value of the `answers` record (`answerSchema`). -/
structure UploadAnswer where
  choice : Option String
  reasoning : Option String
deriving DecidableEq, Repr

/-- One uploaded submission (`submissionUploadSchema`); `answers` is a record
keyed by question-template id, modelled as an association list. -/
structure SubmissionUpload where
  id : String
  queueId : String
  labelingTaskId : Option String
  createdAt : Nat
  questions : List UploadQuestion
  answers : List (String × UploadAnswer)
deriving DecidableEq, Repr

/-- Record lookup `submission.answers[questionId]`. -/
def lookupAnswer (answers : List (String × UploadAnswer)) (qid : String) :
    Option UploadAnswer :=
  (answers.find? (fun p => p.1 = qid)).map (fun p => p.2)

/-- The `x || null` coercion the handler applies to optional strings: a
missing or empty (falsy) string becomes null. -/
def orNull : Option String → Option String
  | none => none
  | some s => if s = "" then none else some s

/-- The `questions` rows built for one inserted submission: composite id
`questionId + "_" + submissionId`, denormalized queue id, answer fields pulled
from the answers record. -/
def questionRowsFor (sub : SubmissionUpload) : List Question :=
  sub.questions.map
    (fun qo =>
      let answer := lookupAnswer sub.answers qo.id
      { id := qo.id ++ "_" ++ sub.id
        submissionId := sub.id
        queueId := sub.queueId
        questionId := qo.id
        questionText := qo.questionText
        questionType := qo.questionType
        answerChoice := orNull (answer.bind (fun a => a.choice))
        answerReasoning := orNull (answer.bind (fun a => a.reasoning)) })

/-- The `submissions` row inserted for one uploaded submission. -/
def mkSubmissionRow (userId : String) (sub : SubmissionUpload) : Submission :=
  { id := sub.id
    queueId := sub.queueId
    labelingTaskId := orNull sub.labelingTaskId
    userId := userId }

/-- The two tables `upload` touches. -/
structure UploadState where
  submissions : List Submission
  questions : List Question
deriving DecidableEq, Repr

/-- The duplicate check of `upload`: a submission with this id already owned
by the caller. -/
def submissionExists (subs : List Submission) (id userId : String) : Bool :=
  subs.any (fun s => s.id = id && s.userId = userId)

/-- Outcome of the insertion loop of `upload`. -/
structure UploadPass where
  state : UploadState
  inserted : List Submission
  duplicateIds : List String
deriving DecidableEq, Repr

/-- The insertion loop of `upload`: for each uploaded submission in order,
record it as a duplicate (checking the live table) or insert it together with
its question rows. -/
def uploadGo (userId : String) :
    List SubmissionUpload → UploadState → UploadPass
  | [], st => { state := st, inserted := [], duplicateIds := [] }
  | sub :: rest, st =>
    if submissionExists st.submissions sub.id userId then
      let out := uploadGo userId rest st
      { out with duplicateIds := sub.id :: out.duplicateIds }
    else
      let newSub := mkSubmissionRow userId sub
      let st1 : UploadState :=
        { submissions := st.submissions ++ [newSub]
          questions := st.questions ++ questionRowsFor sub }
      let out := uploadGo userId rest st1
      { out with inserted := newSub :: out.inserted }

/-- The error message thrown when duplicates were encountered. -/
def uploadErrorMessage (dups : List String) : String :=
  "Duplicate submission IDs found: " ++ String.intercalate ", " dups ++
    ". These submissions already exist and were skipped."

/-- Success response of `upload`. -/
structure UploadOutput where
  success : Bool
  count : Nat
  submissions : List Submission
deriving DecidableEq, Repr

/-- The `submissions.upload` handler (after authentication): run the insertion
loop over the whole input, then — only after all inserts — throw if any
duplicate id was seen.  The throw does not undo the inserts, so the error
carries the post-loop state. -/
def upload (userId : String) (input : List SubmissionUpload)
    (st : UploadState) :
    Except (String × UploadState) (UploadState × UploadOutput) :=
  let out := uploadGo userId input st
  if out.duplicateIds.length > 0 then
    Except.error (uploadErrorMessage out.duplicateIds, out.state)
  else
    Except.ok
      (out.state,
       { success := true
         count := out.inserted.length
         submissions := out.inserted })

/-! ## Spec predicates and concrete instances used by the claim statements -/

/-- Claim-side reading of C1: whenever `run` returns, completed + failed
equals planned, and planned is the length of the constructed task list. -/
def runCountsConsistent (store : Store) (queueId userId : String)
    (oracle : Nat → TaskOracle) : Bool :=
  match run store queueId userId oracle with
  | Except.ok (_, out) =>
    out.completed + out.failed == out.planned &&
      out.planned ==
        (buildEvaluationTasks (fetchQueueAssignments store queueId userId)
          (fetchQueueQuestions store queueId userId) userId).length
  | Except.error _ => true

/-- Sum, over ALL fetched assignment rows, of the number of queue-question
rows whose template id matches the assignment — the quantity claim C2
ascribes to `planned`. -/
def assignmentsMatchSum (assignments : List AssignmentRow)
    (queueQuestions : List QuestionRow) : Nat :=
  (assignments.map
    (fun ar =>
      (queueQuestions.filter
        (fun qr => qr.question.questionId = ar.assignment.questionId)).length)).sum

/-- Sum restricted to assignments whose judge passes the eligibility guards of
`buildEvaluationTasks`. -/
def eligibleMatchSum (assignments : List AssignmentRow)
    (queueQuestions : List QuestionRow) (userId : String) : Nat :=
  (assignments.map
    (fun ar =>
      if judgeEligible userId ar.judge then
        (queueQuestions.filter
          (fun qr => qr.question.questionId = ar.assignment.questionId)).length
      else 0)).sum

/-- Claim-side reading of C2 as stated: `planned` equals the matching-question
sum over ALL of the queue's assignments. -/
def runPlannedAllAssignmentsSum (store : Store) (queueId userId : String)
    (oracle : Nat → TaskOracle) : Bool :=
  match run store queueId userId oracle with
  | Except.ok (_, out) =>
    out.planned ==
      assignmentsMatchSum (fetchQueueAssignments store queueId userId)
        (fetchQueueQuestions store queueId userId)
  | Except.error _ => true

/-- Amended reading of C2: `planned` equals the matching-question sum over the
assignments whose judge survives the eligibility guards. -/
def runPlannedEligibleSum (store : Store) (queueId userId : String)
    (oracle : Nat → TaskOracle) : Bool :=
  match run store queueId userId oracle with
  | Except.ok (_, out) =>
    out.planned ==
      eligibleMatchSum (fetchQueueAssignments store queueId userId)
        (fetchQueueQuestions store queueId userId) userId
  | Except.error _ => true

/-- A judge whose model name is not in `AVAILABLE_MODELS`; such a judge is
creatable through `judges.create`, which accepts any non-empty model string. -/
def cexJudge : Judge :=
  { id := "judge-1"
    userId := "user-1"
    name := "strict grader"
    systemPrompt := "Grade strictly."
    modelName := "unlisted/model"
    isActive := true }

def cexAssignment : Assignment :=
  { id := "assign-1"
    userId := "user-1"
    queueId := "queue-1"
    questionId := "tmpl-1"
    judgeId := "judge-1" }

def cexSubmission : Submission :=
  { id := "sub-1"
    queueId := "queue-1"
    labelingTaskId := none
    userId := "user-1" }

def cexQuestion : Question :=
  { id := "tmpl-1_sub-1"
    submissionId := "sub-1"
    queueId := "queue-1"
    questionId := "tmpl-1"
    questionText := "Is the sky blue?"
    questionType := "multiple_choice"
    answerChoice := some "yes"
    answerReasoning := none }

/-- A store with one assignment, whose judge has an unlisted model, and one
question row matching the assignment's template. -/
def cexStore : Store :=
  { submissions := [cexSubmission]
    questions := [cexQuestion]
    judges := [cexJudge]
    assignments := [cexAssignment]
    evaluations := [] }

/-- Oracle whose external call always fails with a network error and whose
fallback insert succeeds. -/
def sampleOracle : TaskOracle :=
  { call := CallResult.err "network error"
    successInsertOk := true
    successInsertMsg := "insert failed"
    fallbackInsertOk := true
    successId := "eval-1"
    fallbackId := "eval-2" }

/-- Claim-side reading of C8: every evaluation row a run appends to the store
has a verdict in the pass/fail/inconclusive enum. -/
def runVerdictsValid (store : Store) (queueId userId : String)
    (oracle : Nat → TaskOracle) : Bool :=
  match run store queueId userId oracle with
  | Except.ok (st, _) =>
    ((st.evaluations.drop store.evaluations.length).all
      (fun r => isValidVerdict r.verdict))
  | Except.error _ => true

/-- Assignment row joining `cexAssignment` to its ineligible judge. -/
def cexAssignmentRow : AssignmentRow :=
  { assignment := cexAssignment, judge := some cexJudge }

/-- Question row joining `cexQuestion` to its submission. -/
def sampleQuestionRow : QuestionRow :=
  { question := cexQuestion, submission := some cexSubmission }

/-- Store with no rows at all. -/
def emptyStore : Store :=
  { submissions := []
    questions := []
    judges := []
    assignments := []
    evaluations := [] }

/-- Claim-side reading of C5: a returning run has `completed = 0`,
`failed = planned`, and every row it appended carries a non-null error. -/
def runAllCallsFailDegrades (store : Store) (queueId userId : String)
    (oracle : Nat → TaskOracle) : Bool :=
  match run store queueId userId oracle with
  | Except.ok (st, out) =>
    out.completed == 0 && out.failed == out.planned &&
      ((st.evaluations.drop store.evaluations.length).all
        (fun r => r.error.isSome))
  | Except.error _ => true

/-- A judge with an allow-listed model, owned by the test user. -/
def sampleJudge : Judge :=
  { id := "judge-2"
    userId := "user-1"
    name := "fair grader"
    systemPrompt := "Grade according to the rubric."
    modelName := "openai/gpt-5-mini"
    isActive := true }

def sampleAssignment : Assignment :=
  { id := "assign-2"
    userId := "user-1"
    queueId := "queue-1"
    questionId := "tmpl-1"
    judgeId := "judge-2" }

/-- Store whose single assignment has an eligible judge and one matching
question row, so a run on it builds exactly one task. -/
def goodStore : Store :=
  { submissions := [cexSubmission]
    questions := [cexQuestion]
    judges := [sampleJudge]
    assignments := [sampleAssignment]
    evaluations := [] }

/-- Input assigning two judges (one of them listed twice) to one template. -/
def sampleAssignInput : AssignInput :=
  { queueId := "queue-1"
    questionId := "tmpl-1"
    judgeIds := ["judge-1", "judge-1", "judge-2"] }

def sampleFreshIds : Nat → String := fun k => "fresh-" ++ toString k

def otherFreshIds : Nat → String := fun k => "other-" ++ toString k

/-- One inserted submission advances the store by its row and its question
rows. -/
def insertStep (u : String) (sub : SubmissionUpload) (st : UploadState) :
    UploadState :=
  { submissions := st.submissions ++ [mkSubmissionRow u sub]
    questions := st.questions ++ questionRowsFor sub }

/-- An uploaded submission whose id collides with the already-stored
`cexSubmission`. -/
def sampleUploadDup : SubmissionUpload :=
  { id := "sub-1"
    queueId := "queue-1"
    labelingTaskId := none
    createdAt := 0
    questions := []
    answers := [] }

/-- The single question of `sampleUploadNew`. -/
def sampleUploadQuestion : UploadQuestion :=
  { rev := 1
    id := "tmpl-1"
    questionType := "multiple_choice"
    questionText := "Is the sky blue?" }

/-- A fresh uploaded submission with one question and one answer. -/
def sampleUploadNew : SubmissionUpload :=
  { id := "sub-2"
    queueId := "queue-1"
    labelingTaskId := none
    createdAt := 5
    questions := [sampleUploadQuestion]
    answers := [("tmpl-1", { choice := some "yes", reasoning := none })] }

/-- Upload-side state already holding `cexSubmission`. -/
def sampleUploadState : UploadState :=
  { submissions := [cexSubmission], questions := [] }

/-- Reading of C3's "active-eligible" that follows the spec's words: the only
"active" notion in the spec's data model and in the `judges` schema is the
`isActive` flag, so an assignment's judge is active-eligible when the joined
judge row is present and its `isActive` flag is set.  To be compared with
`judgeEligible`, the guard the source implements. -/
def judgeActiveEligible (judge : Option Judge) : Bool :=
  match judge with
  | none => false
  | some j => j.isActive

/-- A deactivated judge: owned by the caller, allow-listed model, but
`isActive = false` — exactly what `judges.delete` (a soft delete that only
clears the flag) leaves behind. -/
def inactiveJudge : Judge :=
  { id := "judge-3"
    userId := "user-1"
    name := "retired grader"
    systemPrompt := "Grade according to the rubric."
    modelName := "openai/gpt-5-mini"
    isActive := false }

def inactiveAssignment : Assignment :=
  { id := "assign-3"
    userId := "user-1"
    queueId := "queue-1"
    questionId := "tmpl-1"
    judgeId := "judge-3" }

/-- Assignment row joining `inactiveAssignment` to its deactivated judge. -/
def inactiveAssignmentRow : AssignmentRow :=
  { assignment := inactiveAssignment, judge := some inactiveJudge }

/-- Store whose single assignment points at the deactivated judge, with one
question row matching the assignment's template. -/
def inactiveStore : Store :=
  { submissions := [cexSubmission]
    questions := [cexQuestion]
    judges := [inactiveJudge]
    assignments := [inactiveAssignment]
    evaluations := [] }

/-- Whether a run on `inactiveStore` returns with one planned task and one
persisted Evaluation row. -/
def runProducesRowForInactive : Bool :=
  match run inactiveStore "queue-1" "user-1" (fun _ => sampleOracle) with
  | Except.ok (st, out) =>
    out.planned == 1 && decide (st.evaluations.length = 1)
  | Except.error _ => false

/-! ## Theorems: claim statements, lemmas, witnesses -/

/-- Aggregate counts of one settled-results pass sum to the number of slots:
each slot feeds exactly one of the two counters. -/
theorem processEvaluationResults_count_sum
    (rs : List (SettledResult SingleResult)) :
    (processEvaluationResults rs).completedCount +
      (processEvaluationResults rs).failedCount = rs.length := by
  induction rs with
  | nil => rfl
  | cons r rest ih =>
    cases r with
    | fulfilled v =>
      cases hv : v.evaluation with
      | some row =>
        by_cases hs : v.success = true
        · simp only [processEvaluationResults, hv, hs, if_true, List.length_cons]
          omega
        · simp only [processEvaluationResults, hv, Bool.not_eq_true] at hs ⊢
          simp only [hs, Bool.false_eq_true, if_false, List.length_cons]
          omega
      | none =>
        simp only [processEvaluationResults, hv, List.length_cons]
        omega
    | rejected msg =>
      simp only [processEvaluationResults, List.length_cons]
      omega

/-- One settled slot per task, in index order. -/
theorem runTasks_results_length (oracle : Nat → TaskOracle) (k : Nat)
    (ts : List EvalTask) :
    (runTasks oracle k ts).2.length = ts.length := by
  induction ts generalizing k with
  | nil => rfl
  | cons t rest ih => simp [runTasks, ih]

/-- C1: for every run of `evaluations.run` that returns (does not throw a
precondition error), the returned counts satisfy
`completed + failed = planned`, where `planned` is the length of the
constructed task list; every settled task feeds exactly one of the two
counters. -/
theorem run_counts_sum_to_planned (store : Store) (queueId userId : String)
    (oracle : Nat → TaskOracle) :
    runCountsConsistent store queueId userId oracle = true := by
  by_cases h1 : (fetchQueueAssignments store queueId userId).length = 0
  · simp [runCountsConsistent, run, h1]
  · by_cases h2 : (fetchQueueQuestions store queueId userId).length = 0
    · simp [runCountsConsistent, run, h1, h2]
    · simp [runCountsConsistent, run, h1, h2,
        processEvaluationResults_count_sum, runTasks_results_length]

/-- The constructed task list has exactly one task per (eligible assignment,
matching question row) pair. -/
theorem buildEvaluationTasks_length (assignments : List AssignmentRow)
    (queueQuestions : List QuestionRow) (userId : String) :
    (buildEvaluationTasks assignments queueQuestions userId).length =
      eligibleMatchSum assignments queueQuestions userId := by
  induction assignments with
  | nil => rfl
  | cons ar rest ih =>
    simp only [buildEvaluationTasks, eligibleMatchSum, List.map_cons,
      List.flatten_cons, List.length_append, List.sum_cons] at ih ⊢
    cases hj : ar.judge with
    | none => simpa [judgeEligible, hj] using ih
    | some j =>
      by_cases hc : j.userId = userId ∧ j.modelName ∈ AVAILABLE_MODELS
      · simpa [judgeEligible, hj, hc, hc.1, hc.2] using ih
      · simpa [judgeEligible, hj, hc] using ih

/-- Counterexample to C2 as stated: on `cexStore` the run succeeds with
`planned = 0`, while the sum over ALL of the queue's assignments of their
matching question rows is `1` — the assignment whose judge has an unlisted
model contributes matching questions to the claimed sum but no tasks. -/
theorem run_planned_all_assignments_sum_cex :
    runPlannedAllAssignmentsSum cexStore "queue-1" "user-1"
      (fun _ => sampleOracle) = false := by
  decide

/-- C2 (amended): for every queue on which `evaluations.run` succeeds, the
returned planned count equals the sum, over the queue's judge assignments
whose joined judge is present, owned by the caller, and has an allow-listed
model, of the number of concrete question rows whose template id matches that
assignment's question-template id. -/
theorem run_planned_eq_eligible_sum (store : Store) (queueId userId : String)
    (oracle : Nat → TaskOracle) :
    runPlannedEligibleSum store queueId userId oracle = true := by
  by_cases h1 : (fetchQueueAssignments store queueId userId).length = 0
  · simp [runPlannedEligibleSum, run, h1]
  · by_cases h2 : (fetchQueueQuestions store queueId userId).length = 0
    · simp [runPlannedEligibleSum, run, h1, h2]
    · simp [runPlannedEligibleSum, run, h1, h2, buildEvaluationTasks_length]

/-- Rows inserted by one settled task all carry an enum verdict: the success
row's verdict passed `evaluationSchemaCheck`, the fallback row's verdict is
the literal `"inconclusive"`. -/
theorem settleTask_rows_valid (q : Question) (j : Judge) (o : TaskOracle) :
    ((settleTask (runSingleEvaluation q j o)).1.all
      (fun r => isValidVerdict r.verdict)) = true := by
  unfold runSingleEvaluation
  cases hc : o.call with
  | ok raw totalTokens latencyMs =>
    by_cases hs : evaluationSchemaCheck raw = true
    · by_cases hi : o.successInsertOk = true
      · have hv : isValidVerdict raw.verdict = true := by
          simp only [evaluationSchemaCheck, Bool.and_eq_true] at hs
          exact hs.1.1
        simp [settleTask, hs, hi, hv]
      · by_cases hf : o.fallbackInsertOk = true
        · simp [settleTask, hs, hi, hf, insertFallback, fallbackRow,
            isValidVerdict]
        · simp [settleTask, hs, hi, hf, insertFallback]
    · by_cases hf : o.fallbackInsertOk = true
      · simp [settleTask, hs, hf, insertFallback, fallbackRow, isValidVerdict]
      · simp [settleTask, hs, hf, insertFallback]
  | err msg =>
    by_cases hf : o.fallbackInsertOk = true
    · simp [settleTask, hf, insertFallback, fallbackRow, isValidVerdict]
    · simp [settleTask, hf, insertFallback]

/-- Every row inserted while executing a task list carries an enum verdict. -/
theorem runTasks_rows_valid (oracle : Nat → TaskOracle) (k : Nat)
    (ts : List EvalTask) :
    (((runTasks oracle k ts).1).all (fun r => isValidVerdict r.verdict))
      = true := by
  induction ts generalizing k with
  | nil => rfl
  | cons t rest ih =>
    simp [runTasks, List.all_append, settleTask_rows_valid, ih]

/-- C8: every Evaluation row persisted by the orchestrator has verdict in
{pass, fail, inconclusive} — the success path stores a verdict that passed the
enum schema, the failure path stores the literal inconclusive. -/
theorem run_rows_verdict_in_enum (store : Store) (queueId userId : String)
    (oracle : Nat → TaskOracle) :
    runVerdictsValid store queueId userId oracle = true := by
  by_cases h1 : (fetchQueueAssignments store queueId userId).length = 0
  · simp [runVerdictsValid, run, h1]
  · by_cases h2 : (fetchQueueQuestions store queueId userId).length = 0
    · simp [runVerdictsValid, run, h1, h2]
    · simp [runVerdictsValid, run, h1, h2, List.drop_left,
        runTasks_rows_valid]

/-- C3 (amended): when building the task list, tasks are created only for
assignments whose judge is present, owned by the caller, and has an
allow-listed model — the guards `buildEvaluationTasks` implements; the
`isActive` flag is NOT consulted (see the counterexample
`build_tasks_for_inactive_judge_cex` for the claim as stated).  An assignment
whose joined judge row is missing or fails these guards contributes no task —
removing it leaves the task list unchanged, so no Evaluation row can ever be
produced for it. -/
theorem buildEvaluationTasks_skips_ineligible (userId : String)
    (queueQuestions : List QuestionRow) (pre post : List AssignmentRow)
    (ar : AssignmentRow) (h : judgeEligible userId ar.judge = false) :
    buildEvaluationTasks (pre ++ ar :: post) queueQuestions userId =
      buildEvaluationTasks (pre ++ post) queueQuestions userId := by
  unfold buildEvaluationTasks
  rw [List.map_append, List.map_append, List.map_cons, List.flatten_append,
    List.flatten_append, List.flatten_cons]
  congr 1
  cases hj : ar.judge with
  | none => simp
  | some j =>
    by_cases hc : j.userId = userId ∧ j.modelName ∈ AVAILABLE_MODELS
    · exfalso
      simp only [judgeEligible, hj] at h
      simp [hc.1, hc.2] at h
    · simp [hj, hc]

/-- Witness for C3 (amended): a concrete ineligible assignment (unlisted
model) with a matching question produces no tasks. -/
theorem buildEvaluationTasks_skips_ineligible_witness :
    judgeEligible "user-1" cexAssignmentRow.judge = false ∧
      buildEvaluationTasks ([] ++ cexAssignmentRow :: []) [sampleQuestionRow]
          "user-1" =
        buildEvaluationTasks ([] ++ []) [sampleQuestionRow] "user-1" :=
  ⟨by decide,
   buildEvaluationTasks_skips_ineligible "user-1" [sampleQuestionRow] [] []
     cexAssignmentRow (by decide)⟩

/-- Counterexample to C3 as stated: an assignment whose judge row is present
but not active-eligible — its `isActive` flag is false, as `judges.delete`
(a soft delete) leaves it — still yields one task per matching question, and a
run over it persists an Evaluation row: the task-building loop never consults
the `isActive` flag. -/
theorem build_tasks_for_inactive_judge_cex :
    judgeActiveEligible inactiveAssignmentRow.judge = false ∧
      (buildEvaluationTasks [inactiveAssignmentRow] [sampleQuestionRow]
        "user-1").length = 1 ∧
      runProducesRowForInactive = true := by
  decide

/-- C4: a run against a queue with zero judge assignments or zero question
rows throws the corresponding descriptive error; both checks happen before any
task is built, so the error branch performs no insert and no external call
(`Except.error` carries no store). -/
theorem run_precondition_fails_fast (store : Store) (queueId userId : String)
    (oracle : Nat → TaskOracle)
    (h : fetchQueueAssignments store queueId userId = [] ∨
      fetchQueueQuestions store queueId userId = []) :
    run store queueId userId oracle =
        Except.error "No judge assignments found for this queue" ∨
      run store queueId userId oracle =
        Except.error "No questions found for this queue" := by
  by_cases h1 : (fetchQueueAssignments store queueId userId).length = 0
  · left
    simp [run, h1]
  · right
    rcases h with h | h
    · exact absurd (by simp [h]) h1
    · simp [run, h1, h]

/-- Witness for C4: against the empty store (zero assignments) the run throws
one of the two precondition errors. -/
theorem run_precondition_fails_fast_witness :
    fetchQueueAssignments emptyStore "queue-1" "user-1" = [] ∧
      (run emptyStore "queue-1" "user-1" (fun _ => sampleOracle) =
          Except.error "No judge assignments found for this queue" ∨
        run emptyStore "queue-1" "user-1" (fun _ => sampleOracle) =
          Except.error "No questions found for this queue") :=
  ⟨rfl,
   run_precondition_fails_fast emptyStore "queue-1" "user-1"
     (fun _ => sampleOracle) (Or.inl rfl)⟩

/-- Executing a task list whose external calls all throw (and whose fallback
inserts all succeed): nothing completes, every task fails, and every inserted
row records the error. -/
theorem runTasks_all_calls_fail (oracle : Nat → TaskOracle)
    (hf : ∀ i, (oracle i).call.isErr = true ∧ (oracle i).fallbackInsertOk = true)
    (k : Nat) (ts : List EvalTask) :
    (processEvaluationResults (runTasks oracle k ts).2).completedCount = 0 ∧
      (processEvaluationResults (runTasks oracle k ts).2).failedCount
        = ts.length ∧
      (((runTasks oracle k ts).1).all (fun r => r.error.isSome)) = true := by
  induction ts generalizing k with
  | nil => exact ⟨rfl, rfl, rfl⟩
  | cons t rest ih =>
    obtain ⟨he, hfb⟩ := hf k
    obtain ⟨ih1, ih2, ih3⟩ := ih (k + 1)
    cases hc : (oracle k).call with
    | ok raw totalTokens latencyMs =>
      rw [hc] at he
      exact absurd he (by simp [CallResult.isErr])
    | err msg =>
      have hstep : runSingleEvaluation t.1 t.2 (oracle k) =
          Except.ok ([fallbackRow (oracle k).fallbackId t.1 t.2 msg],
            { success := false, evaluation := none }) := by
        simp [runSingleEvaluation, hc, insertFallback, hfb]
      simp [runTasks, hstep, settleTask, processEvaluationResults,
        fallbackRow, ih1, ih2, ih3]

/-- C5: for every run in which the external structured-generation call errors
on every task and the fallback insert succeeds, the returned counts satisfy
`completed = 0` and `failed = planned`, and every Evaluation row inserted by
the run has a non-null error field. -/
theorem run_all_calls_fail_degrades (store : Store) (queueId userId : String)
    (oracle : Nat → TaskOracle)
    (hf : ∀ i, (oracle i).call.isErr = true ∧
      (oracle i).fallbackInsertOk = true) :
    runAllCallsFailDegrades store queueId userId oracle = true := by
  by_cases h1 : (fetchQueueAssignments store queueId userId).length = 0
  · simp [runAllCallsFailDegrades, run, h1]
  · by_cases h2 : (fetchQueueQuestions store queueId userId).length = 0
    · simp [runAllCallsFailDegrades, run, h1, h2]
    · obtain ⟨hc0, hfl, hall⟩ := runTasks_all_calls_fail oracle hf 0
        (buildEvaluationTasks (fetchQueueAssignments store queueId userId)
          (fetchQueueQuestions store queueId userId) userId)
      simp [runAllCallsFailDegrades, run, h1, h2, List.drop_left, hc0, hfl,
        hall]

/-- Witness for C5 on `goodStore` with an always-failing external call. -/
theorem run_all_calls_fail_degrades_witness :
    sampleOracle.call.isErr = true ∧ sampleOracle.fallbackInsertOk = true ∧
      runAllCallsFailDegrades goodStore "queue-1" "user-1"
        (fun _ => sampleOracle) = true :=
  ⟨rfl, rfl,
   run_all_calls_fail_degrades goodStore "queue-1" "user-1"
     (fun _ => sampleOracle) (fun _ => ⟨rfl, rfl⟩)⟩

/-- Every pool step leaves the number of workers unchanged. -/
theorem poolStep_workers_length {n : Nat} {s s' : PoolState}
    (h : PoolStep n s s') : s'.workers.length = s.workers.length := by
  cases h <;> simp

/-- Along any run of the pool, the worker count stays
`min limit tasks.length`. -/
theorem poolReachable_workers_length {limit n : Nat} {s : PoolState}
    (h : PoolReachable limit n s) : s.workers.length = min limit n := by
  induction h with
  | refl => simp [poolInit]
  | tail _ hbc ih => rw [poolStep_workers_length hbc, ih]

/-- C6: in every reachable state of a run over `n` tasks, the number of
external calls outstanding simultaneously is at most
`min CONCURRENCY_LIMIT n` — and hence at most the fixed worker constant 10:
the pool has `min(10, n)` workers and each worker awaits at most one task at a
time. -/
theorem pool_inflight_bounded (n : Nat) (s : PoolState)
    (h : PoolReachable CONCURRENCY_LIMIT n s) :
    inflight s ≤ min CONCURRENCY_LIMIT n ∧ inflight s ≤ CONCURRENCY_LIMIT := by
  have hcount : inflight s ≤ s.workers.length := List.countP_le_length _
  rw [poolReachable_workers_length h] at hcount
  exact ⟨hcount, le_trans hcount (Nat.min_le_left _ _)⟩

/-- Witness for C6: the state reached after one worker claims task 0 of a
three-task run satisfies the bound. -/
theorem pool_inflight_bounded_witness :
    inflight
        { nextIndex := (poolInit CONCURRENCY_LIMIT 3).nextIndex + 1
          workers := (poolInit CONCURRENCY_LIMIT 3).workers.set 0
            (WorkerState.running (poolInit CONCURRENCY_LIMIT 3).nextIndex) } ≤
        min CONCURRENCY_LIMIT 3 ∧
      inflight
        { nextIndex := (poolInit CONCURRENCY_LIMIT 3).nextIndex + 1
          workers := (poolInit CONCURRENCY_LIMIT 3).workers.set 0
            (WorkerState.running (poolInit CONCURRENCY_LIMIT 3).nextIndex) } ≤
        CONCURRENCY_LIMIT :=
  pool_inflight_bounded 3 _
    (Relation.ReflTransGen.single
      (PoolStep.claim (poolInit CONCURRENCY_LIMIT 3) 0 rfl (by decide)))

/-- C7: a task whose external call fails persists a best-effort row (verdict
inconclusive, the error message in both reasoning and error, zero tokens and
latency) and reports failure; if the fallback insert itself throws, the task
rejects, the worker's catch swallows the rejection, the remaining tasks still
run from an unchanged table, and the rejection shows up only as one extra
count in `failedCount`. -/
theorem task_failure_fallback_and_swallow (q : Question) (j : Judge)
    (o : TaskOracle) (msg : String) (oracle : Nat → TaskOracle) (k : Nat)
    (rest : List EvalTask) (hc : o.call = CallResult.err msg)
    (ho : oracle k = o) :
    (o.fallbackInsertOk = true →
      runSingleEvaluation q j o =
        Except.ok
          ([{ id := o.fallbackId
              questionId := q.id
              judgeId := j.id
              verdict := "inconclusive"
              reasoning := msg
              tokensUsed := 0
              latencyMs := 0
              error := some msg }],
           { success := false, evaluation := none })) ∧
    (o.fallbackInsertOk = false →
      runSingleEvaluation q j o = Except.error msg ∧
      runTasks oracle k (((q, j) : EvalTask) :: rest) =
        ((runTasks oracle (k + 1) rest).1,
          SettledResult.rejected msg :: (runTasks oracle (k + 1) rest).2) ∧
      processEvaluationResults
          (runTasks oracle k (((q, j) : EvalTask) :: rest)).2 =
        { evaluationResults :=
            (processEvaluationResults
              (runTasks oracle (k + 1) rest).2).evaluationResults
          completedCount :=
            (processEvaluationResults
              (runTasks oracle (k + 1) rest).2).completedCount
          failedCount :=
            (processEvaluationResults
              (runTasks oracle (k + 1) rest).2).failedCount + 1 }) := by
  constructor
  · intro hf
    simp [runSingleEvaluation, hc, insertFallback, hf, fallbackRow]
  · intro hf
    have h1 : runSingleEvaluation q j o = Except.error msg := by
      simp [runSingleEvaluation, hc, insertFallback, hf]
    refine ⟨h1, ?_, ?_⟩
    · simp [runTasks, ho, h1, settleTask]
    · simp [runTasks, ho, h1, settleTask, processEvaluationResults]

/-- Witness for C7 on the fallback-succeeds branch: a concrete network error
is downgraded to an inconclusive row with the message in both fields. -/
theorem task_failure_fallback_and_swallow_witness :
    sampleOracle.call = CallResult.err "network error" ∧
      (sampleOracle.fallbackInsertOk = true →
        runSingleEvaluation cexQuestion sampleJudge sampleOracle =
          Except.ok
            ([{ id := sampleOracle.fallbackId
                questionId := cexQuestion.id
                judgeId := sampleJudge.id
                verdict := "inconclusive"
                reasoning := "network error"
                tokensUsed := 0
                latencyMs := 0
                error := some "network error" }],
             { success := false, evaluation := none })) :=
  ⟨rfl,
   (task_failure_fallback_and_swallow cexQuestion sampleJudge sampleOracle
     "network error" (fun _ => sampleOracle) 0 [] rfl rfl).1⟩

/-- An existing tuple keeps existing when rows are appended. -/
theorem assignExists_append (rows more : List Assignment)
    (qI tI jid u : String) (h : assignExists rows qI tI jid u = true) :
    assignExists (rows ++ more) qI tI jid u = true := by
  simp only [assignExists, List.any_append, Bool.or_eq_true]
  exact Or.inl h

/-- A tuple existing in the appended suffix exists in the whole table. -/
theorem assignExists_append_right (rows more : List Assignment)
    (qI tI jid u : String) (h : assignExists more qI tI jid u = true) :
    assignExists (rows ++ more) qI tI jid u = true := by
  simp only [assignExists, List.any_append, Bool.or_eq_true]
  exact Or.inr h

/-- The assign loop only appends rows to the table. -/
theorem assignGo_extends (u qI tI : String) (f : Nat → String) :
    ∀ (jids : List String) (k : Nat) (rows : List Assignment),
      ∃ ext, (assignGo u qI tI f k jids rows).1 = rows ++ ext := by
  intro jids
  induction jids with
  | nil => exact fun k rows => ⟨[], by simp [assignGo]⟩
  | cons jid rest ih =>
    intro k rows
    by_cases h : assignExists rows qI tI jid u = true
    · obtain ⟨ext, hext⟩ := ih (k + 1) rows
      exact ⟨ext, by simp [assignGo, h, hext]⟩
    · obtain ⟨ext, hext⟩ := ih (k + 1) (rows ++ [⟨f k, u, qI, tI, jid⟩])
      exact ⟨⟨f k, u, qI, tI, jid⟩ :: ext, by simp [assignGo, h, hext]⟩

/-- After the assign loop, every judge id of the input has its tuple in the
table (it was either already there or has just been inserted). -/
theorem assignGo_mem_after (u qI tI : String) (f : Nat → String) :
    ∀ (jids : List String) (k : Nat) (rows : List Assignment) (jid : String),
      jid ∈ jids →
      assignExists (assignGo u qI tI f k jids rows).1 qI tI jid u = true := by
  intro jids
  induction jids with
  | nil =>
    intro k rows jid h
    simp at h
  | cons jid0 rest ih =>
    intro k rows jid hmem
    by_cases h : assignExists rows qI tI jid0 u = true
    · rcases List.mem_cons.mp hmem with heq | hmemr
      · subst heq
        obtain ⟨ext, hext⟩ := assignGo_extends u qI tI f rest (k + 1) rows
        simp only [assignGo, h, if_true]
        rw [hext]
        exact assignExists_append rows ext qI tI jid u h
      · simp only [assignGo, h, if_true]
        exact ih (k + 1) rows jid hmemr
    · rcases List.mem_cons.mp hmem with heq | hmemr
      · subst heq
        obtain ⟨ext, hext⟩ := assignGo_extends u qI tI f rest (k + 1)
          (rows ++ [⟨f k, u, qI, tI, jid⟩])
        simp only [assignGo, h, if_false]
        rw [hext, List.append_assoc]
        apply assignExists_append_right
        apply assignExists_append
        simp [assignExists]
      · simp only [assignGo, h, if_false]
        exact ih (k + 1) (rows ++ [⟨f k, u, qI, tI, jid0⟩]) jid hmemr

/-- If every judge id of the input already has its tuple in the table, the
assign loop inserts nothing and leaves the table unchanged. -/
theorem assignGo_all_exist_noop (u qI tI : String) (f : Nat → String) :
    ∀ (jids : List String) (k : Nat) (rows : List Assignment),
      (∀ jid ∈ jids, assignExists rows qI tI jid u = true) →
      assignGo u qI tI f k jids rows = (rows, []) := by
  intro jids
  induction jids with
  | nil => exact fun k rows _ => rfl
  | cons jid0 rest ih =>
    intro k rows hall
    have h0 : assignExists rows qI tI jid0 u = true :=
      hall jid0 (List.mem_cons_self _ _)
    simp only [assignGo, h0, if_true]
    exact ih (k + 1) rows (fun jid hm => hall jid (List.mem_cons_of_mem _ hm))

/-- Link between the existence check of `assign` and tuple membership. -/
theorem assignExists_iff_tuple_mem (rows : List Assignment)
    (qI tI jid u : String) :
    assignExists rows qI tI jid u = true ↔
      (qI, tI, jid, u) ∈ rows.map assignTuple := by
  simp only [assignExists, List.any_eq_true, Bool.and_eq_true,
    decide_eq_true_eq, List.mem_map, assignTuple, Prod.mk.injEq, and_assoc]

/-- The assign loop preserves per-owner tuple uniqueness: a row is only
inserted after the existence check for its exact tuple came back empty. -/
theorem assignGo_nodup (u qI tI : String) (f : Nat → String) :
    ∀ (jids : List String) (k : Nat) (rows : List Assignment),
      (rows.map assignTuple).Nodup →
      ((assignGo u qI tI f k jids rows).1.map assignTuple).Nodup := by
  intro jids
  induction jids with
  | nil =>
    intro k rows h
    simpa [assignGo] using h
  | cons jid rest ih =>
    intro k rows h
    by_cases he : assignExists rows qI tI jid u = true
    · simp only [assignGo, he, if_true]
      exact ih (k + 1) rows h
    · simp only [assignGo, he, if_false]
      apply ih (k + 1)
      rw [List.map_append]
      rw [List.nodup_append]
      refine ⟨h, List.nodup_singleton _, ?_⟩
      intro x hx hx'
      simp only [List.map_cons, List.map_nil, List.mem_singleton] at hx'
      subst hx'
      apply he
      exact (assignExists_iff_tuple_mem rows qI tI jid u).mpr hx

/-- C9: `assignments.assign` skips any judge id whose exact
(queueId, questionId, judgeId, userId) tuple already exists, so running it
twice with the same input inserts nothing the second time and leaves the table
unchanged, and a table with per-owner-unique tuples still has per-owner-unique
tuples after any `assign`. -/
theorem assign_idempotent_and_unique (rows0 : List Assignment) (u : String)
    (inp : AssignInput) (f g : Nat → String)
    (h : (rows0.map assignTuple).Nodup) :
    assign (assign rows0 u inp f).1 u inp g =
        ((assign rows0 u inp f).1, []) ∧
      (((assign rows0 u inp f).1.map assignTuple)).Nodup := by
  constructor
  · apply assignGo_all_exist_noop
    intro jid hm
    exact assignGo_mem_after u inp.queueId inp.questionId f inp.judgeIds 0
      rows0 jid hm
  · exact assignGo_nodup u inp.queueId inp.questionId f inp.judgeIds 0 rows0 h

/-- Witness for C9: starting from an empty table, the second identical
`assign` call inserts nothing and tuples stay unique. -/
theorem assign_idempotent_and_unique_witness :
    (([] : List Assignment).map assignTuple).Nodup ∧
      (assign (assign [] "user-1" sampleAssignInput sampleFreshIds).1 "user-1"
          sampleAssignInput otherFreshIds =
        ((assign [] "user-1" sampleAssignInput sampleFreshIds).1, []) ∧
       (((assign [] "user-1" sampleAssignInput sampleFreshIds).1.map
          assignTuple)).Nodup) :=
  ⟨by simp,
   assign_idempotent_and_unique [] "user-1" sampleAssignInput sampleFreshIds
     otherFreshIds (by simp)⟩

/-- An existing submission id keeps existing when rows are appended. -/
theorem submissionExists_append (subs more : List Submission)
    (id u : String) (h : submissionExists subs id u = true) :
    submissionExists (subs ++ more) id u = true := by
  simp only [submissionExists, List.any_append, Bool.or_eq_true]
  exact Or.inl h

/-- State projection of the upload loop at a duplicate head. -/
theorem uploadGo_dup_state (u : String) (sub : SubmissionUpload)
    (rest : List SubmissionUpload) (st : UploadState)
    (h : submissionExists st.submissions sub.id u = true) :
    (uploadGo u (sub :: rest) st).state = (uploadGo u rest st).state := by
  simp only [uploadGo]
  rw [if_pos h]

/-- Duplicate-list projection of the upload loop at a duplicate head. -/
theorem uploadGo_dup_dups (u : String) (sub : SubmissionUpload)
    (rest : List SubmissionUpload) (st : UploadState)
    (h : submissionExists st.submissions sub.id u = true) :
    (uploadGo u (sub :: rest) st).duplicateIds =
      sub.id :: (uploadGo u rest st).duplicateIds := by
  simp only [uploadGo]
  rw [if_pos h]

/-- State projection of the upload loop at a fresh head. -/
theorem uploadGo_new_state (u : String) (sub : SubmissionUpload)
    (rest : List SubmissionUpload) (st : UploadState)
    (h : submissionExists st.submissions sub.id u = false) :
    (uploadGo u (sub :: rest) st).state =
      (uploadGo u rest (insertStep u sub st)).state := by
  simp only [uploadGo, insertStep]
  rw [if_neg (by simp [h])]

/-- Duplicate-list projection of the upload loop at a fresh head. -/
theorem uploadGo_new_dups (u : String) (sub : SubmissionUpload)
    (rest : List SubmissionUpload) (st : UploadState)
    (h : submissionExists st.submissions sub.id u = false) :
    (uploadGo u (sub :: rest) st).duplicateIds =
      (uploadGo u rest (insertStep u sub st)).duplicateIds := by
  simp only [uploadGo, insertStep]
  rw [if_neg (by simp [h])]

/-- The upload loop only appends rows to the two tables. -/
theorem uploadGo_extends (u : String) :
    ∀ (input : List SubmissionUpload) (st : UploadState),
      ∃ extS extQ,
        (uploadGo u input st).state.submissions = st.submissions ++ extS ∧
          (uploadGo u input st).state.questions = st.questions ++ extQ := by
  intro input
  induction input with
  | nil => exact fun st => ⟨[], [], by simp [uploadGo], by simp [uploadGo]⟩
  | cons sub rest ih =>
    intro st
    by_cases h : submissionExists st.submissions sub.id u = true
    · obtain ⟨eS, eQ, h1, h2⟩ := ih st
      exact ⟨eS, eQ, by rw [uploadGo_dup_state u sub rest st h, h1],
        by rw [uploadGo_dup_state u sub rest st h, h2]⟩
    · have hb : submissionExists st.submissions sub.id u = false := by
        simpa using h
      obtain ⟨eS, eQ, h1, h2⟩ := ih (insertStep u sub st)
      refine ⟨mkSubmissionRow u sub :: eS, questionRowsFor sub ++ eQ, ?_, ?_⟩
      · rw [uploadGo_new_state u sub rest st hb, h1]
        simp [insertStep]
      · rw [uploadGo_new_state u sub rest st hb, h2]
        simp [insertStep]

/-- Any input submission whose id already exists (for the caller) when its
turn comes — in particular one that existed before the call — ends up in the
reported duplicate list. -/
theorem uploadGo_dup_recorded (u : String) :
    ∀ (input : List SubmissionUpload) (st : UploadState)
      (s : SubmissionUpload),
      s ∈ input → submissionExists st.submissions s.id u = true →
      s.id ∈ (uploadGo u input st).duplicateIds := by
  intro input
  induction input with
  | nil =>
    intro st s h
    simp at h
  | cons sub rest ih =>
    intro st s hmem hex
    by_cases h : submissionExists st.submissions sub.id u = true
    · rw [uploadGo_dup_dups u sub rest st h]
      rcases List.mem_cons.mp hmem with heq | hr
      · subst heq
        exact List.mem_cons_self _ _
      · exact List.mem_cons_of_mem _ (ih st s hr hex)
    · have hb : submissionExists st.submissions sub.id u = false := by
        simpa using h
      rcases List.mem_cons.mp hmem with heq | hr
      · subst heq
        exact absurd hex h
      · rw [uploadGo_new_dups u sub rest st hb]
        exact ih (insertStep u sub st) s hr
          (submissionExists_append st.submissions [mkSubmissionRow u sub]
            s.id u hex)

/-- Any input submission that is not a duplicate (under distinct input ids)
gets inserted, together with all its question rows, and remains in the final
state. -/
theorem uploadGo_inserts_nondup (u : String) :
    ∀ (input : List SubmissionUpload) (st : UploadState)
      (s : SubmissionUpload),
      s ∈ input → (input.map (fun x => x.id)).Nodup →
      submissionExists st.submissions s.id u = false →
      mkSubmissionRow u s ∈ (uploadGo u input st).state.submissions ∧
        ∀ qr ∈ questionRowsFor s, qr ∈ (uploadGo u input st).state.questions := by
  intro input
  induction input with
  | nil =>
    intro st s h
    simp at h
  | cons sub rest ih =>
    intro st s hmem hnd hex
    by_cases h : submissionExists st.submissions sub.id u = true
    · rcases List.mem_cons.mp hmem with heq | hr
      · subst heq
        rw [hex] at h
        exact absurd h (by simp)
      · rw [uploadGo_dup_state u sub rest st h]
        exact ih st s hr (by simpa using hnd.of_cons) hex
    · have hb : submissionExists st.submissions sub.id u = false := by
        simpa using h
      rcases List.mem_cons.mp hmem with heq | hr
      · subst heq
        obtain ⟨eS, eQ, h1, h2⟩ := uploadGo_extends u rest (insertStep u s st)
        constructor
        · rw [uploadGo_new_state u s rest st hb, h1]
          simp [insertStep]
        · intro qr hqr
          rw [uploadGo_new_state u s rest st hb, h2]
          simp only [insertStep, List.append_assoc, List.mem_append]
          exact Or.inr (Or.inl hqr)
      · have hid : sub.id ≠ s.id := by
          have hcons : (∀ x ∈ rest, ¬x.id = sub.id) ∧
              (rest.map (fun x => x.id)).Nodup := by simpa using hnd
          intro hEq
          exact hcons.1 s hr hEq.symm
        have hex1 : submissionExists
            ((insertStep u sub st).submissions) s.id u = false := by
          simp only [insertStep, submissionExists, List.any_append,
            Bool.or_eq_false_iff]
          refine ⟨by simpa [submissionExists] using hex, ?_⟩
          simp [mkSubmissionRow, hid]
        rw [uploadGo_new_state u sub rest st hb]
        exact ih (insertStep u sub st) s hr
          (by simpa using hnd.of_cons) hex1

/-- C10: when the input of `submissions.upload` contains at least one id that
already exists for the caller, the call throws the duplicate-ids error — but
only after the whole loop ran: every duplicate id is named in the thrown list,
and every non-duplicate submission of the same input, with its question rows,
has been inserted and remains persisted (the error carries the post-loop
state; nothing is rolled back). -/
theorem upload_duplicate_not_atomic (u : String)
    (input : List SubmissionUpload) (st : UploadState)
    (hdup : (input.any
      (fun s => submissionExists st.submissions s.id u)) = true)
    (hids : (input.map (fun s => s.id)).Nodup) :
    upload u input st =
        Except.error
          (uploadErrorMessage (uploadGo u input st).duplicateIds,
            (uploadGo u input st).state) ∧
      (∀ s ∈ input, submissionExists st.submissions s.id u = true →
        s.id ∈ (uploadGo u input st).duplicateIds) ∧
      (∀ s ∈ input, submissionExists st.submissions s.id u = false →
        mkSubmissionRow u s ∈ (uploadGo u input st).state.submissions ∧
          ∀ qr ∈ questionRowsFor s,
            qr ∈ (uploadGo u input st).state.questions) := by
  obtain ⟨s0, hs0mem, hs0⟩ := List.any_eq_true.mp hdup
  have hmem0 : s0.id ∈ (uploadGo u input st).duplicateIds :=
    uploadGo_dup_recorded u input st s0 hs0mem hs0
  have hpos : 0 < (uploadGo u input st).duplicateIds.length :=
    List.length_pos.mpr (List.ne_nil_of_mem hmem0)
  refine ⟨?_, ?_, ?_⟩
  · simp [upload, hpos]
  · exact fun s hm he => uploadGo_dup_recorded u input st s hm he
  · exact fun s hm he => uploadGo_inserts_nondup u input st s hm hids he

/-- Witness for C10: one duplicate plus one fresh submission — the call
throws, with the post-loop state carried by the error. -/
theorem upload_duplicate_not_atomic_witness :
    ([sampleUploadDup, sampleUploadNew].any
        (fun s =>
          submissionExists sampleUploadState.submissions s.id "user-1"))
        = true ∧
      upload "user-1" [sampleUploadDup, sampleUploadNew] sampleUploadState =
        Except.error
          (uploadErrorMessage
            (uploadGo "user-1" [sampleUploadDup, sampleUploadNew]
              sampleUploadState).duplicateIds,
            (uploadGo "user-1" [sampleUploadDup, sampleUploadNew]
              sampleUploadState).state) :=
  ⟨by decide,
   (upload_duplicate_not_atomic "user-1" [sampleUploadDup, sampleUploadNew]
     sampleUploadState (by decide) (by decide)).1⟩

end JudgeAI

